import Mathlib

/-!
Verification development for the 4PM Store order/discount subsystem.

Shallow embedding of:
  - src/server/controllers/order.js        (createNewOrder)
  - src/server/controllers/admin-controls.js
      (createDiscountCodeHelper, getItemsPurchasedList, getTotalPurchaseAmount,
       getDiscountCodesList, getTotalDiscountAmount, validateDiscountCode)

Conventions of the embedding:
  - JavaScript numbers are modelled as exact rationals (ℚ); IEEE-754 rounding
    is abstracted away.  Monetary values are rationals measured in paise.
  - Mongo ObjectIds are modelled as natural numbers.
  - A rejected promise / thrown exception is modelled as `Except.error`.
  - Collections are modelled as lists of records; `save` appends,
    `findOne` is `List.find?`, `countDocuments` is `List.length`.
-/

namespace FourPMStore

/-- A dynamically-typed JavaScript value as it can flow into the
`discountPercent` position: either a number or an ObjectId.  Needed because
`order.js:84` passes the order's ObjectId as the first argument of
`createDiscountCodeHelper`, whose single parameter is `discountPercent`. -/
inductive JsVal where
  | num (q : ℚ)
  | oid (id : ℕ)
  deriving DecidableEq, Repr

/-- Discount-code lifecycle states (`DiscountCodeStatus` in common/typedefs). -/
inductive DiscountCodeStatus where
  | ACTIVE
  | USED
  | EXPIRED
  deriving DecidableEq, Repr

/-- A persisted DiscountCode record.  The mongoose schema file is not part of
src/; its fields follow spec §3 (identity, discountPercent, status,
discountAmount, optional reference to the Order that triggered the code;
`createdOn` is irrelevant to every claim and omitted).  Which fields a saved
code actually carries is decided by the code in src/:
`createDiscountCodeHelper` (admin-controls.js:24-27) constructs the document
from `discountPercent` and `status` only, so `orderId` and `discountAmount`
remain unset (`none`). -/
structure DiscountCode where
  _id : ℕ
  discountPercent : JsVal
  status : DiscountCodeStatus
  orderId : Option ℕ
  discountAmount : Option ℚ
  deriving DecidableEq, Repr

/-- The discount-code collection. -/
abbrev Registry := List DiscountCode

/-- A fresh ObjectId for a new document: one larger than every id in the
collection.  Models mongoose generating a unique `_id` on save. -/
def freshCodeId (reg : Registry) : ℕ :=
  (reg.map DiscountCode._id).foldr max 0 + 1

/-- Embeds `createDiscountCodeHelper` (admin-controls.js:16-44).  Its JS
signature is `(discountPercent = 10)`: one parameter.  JavaScript drops extra
call-site arguments, so a caller passing `(orderId, percent, amount)` binds
`discountPercent := orderId` and the rest is discarded; the embedding
therefore takes the single `discountPercent` argument, of dynamic type
`JsVal`.  The helper saves a document with fields `discountPercent` and
`status := ACTIVE` (lines 24-27) and resolves with the new document's id
(line 33). -/
def createDiscountCodeHelper (discountPercent : JsVal) (reg : Registry) :
    ℕ × Registry :=
  let id := freshCodeId reg
  let code : DiscountCode :=
    { _id := id
      discountPercent := discountPercent
      status := DiscountCodeStatus.ACTIVE
      orderId := none
      discountAmount := none }
  (id, reg ++ [code])

/-- Result shape of `validateDiscountCode`: `{validCode: false}` or
`{validCode: true, discountPercent}`. -/
inductive ValidateResult where
  | invalid
  | valid (discountPercent : JsVal)
  deriving DecidableEq, Repr

/-- Thrown JavaScript errors / promise rejections, distinguished by kind. -/
inductive JsError where
  | jsError (msg : String)
  | typeError (msg : String)
  | referenceError (msg : String)
  | bsonTypeError
  deriving DecidableEq, Repr

/-- A user-entered discount-code string as consumed by
`new ObjectId(discountCode)` (admin-controls.js:226): either it is a
well-formed 24-hex-character ObjectId string, denoting an id, or it is
malformed, in which case the `ObjectId` constructor throws. -/
inductive CodeString where
  | wellFormed (id : ℕ)
  | malformed (s : String)
  deriving DecidableEq, Repr

/-- Outcome of the `DiscountCode.findOne` call: the store either answers
(with the document or nothing) or the lookup fails (promise rejects),
e.g. storage unavailable. -/
inductive LookupOutcome where
  | ok (found : Option DiscountCode)
  | failure
  deriving DecidableEq, Repr

/-- `findOne` against a live registry list: the store answers with the first
document whose `_id` matches. -/
def regLookup (reg : Registry) (id : ℕ) : LookupOutcome :=
  LookupOutcome.ok (reg.find? (fun dc => dc._id == id))

/-- Embeds `validateDiscountCode` (admin-controls.js:223-251), store state
passed through explicitly.  `new ObjectId(discountCode)` on line 226 runs
synchronously inside the Promise executor: a malformed code string makes the
constructor throw, which rejects the returned promise (`Except.error`) — the
`.catch` on line 244 is attached to the `findOne` promise only and does not
see this throw.  A `findOne` rejection is caught and resolved to
`{validCode: false}` (line 248).  A found document with status ≠ ACTIVE, or
no document, resolves `{validCode: false}` (lines 231-236); a found ACTIVE
document resolves `{validCode: true, discountPercent}` (lines 239-242).
`findOne` writes nothing, so the registry is returned unchanged. -/
def validateDiscountCode (code : CodeString)
    (lookup : ℕ → LookupOutcome) (reg : Registry) :
    Except JsError ValidateResult × Registry :=
  match code with
  | CodeString.malformed _ => (Except.error JsError.bsonTypeError, reg)
  | CodeString.wellFormed id =>
    match lookup id with
    | LookupOutcome.failure => (Except.ok ValidateResult.invalid, reg)
    | LookupOutcome.ok none => (Except.ok ValidateResult.invalid, reg)
    | LookupOutcome.ok (some dc) =>
      if dc.status ≠ DiscountCodeStatus.ACTIVE then
        (Except.ok ValidateResult.invalid, reg)
      else
        (Except.ok (ValidateResult.valid dc.discountPercent), reg)

/-- A catalog Item as projected by the aggregate in order.js:36-43
(`_id`, `availableQty`, `priceInPaise`, `itemName`), plus `purchasedCount`
from the full data model (spec §3), which `getItemsPurchasedList` reads. -/
structure Item where
  _id : ℕ
  itemName : String
  priceInPaise : ℚ
  availableQty : ℚ
  purchasedCount : ℕ
  deriving DecidableEq, Repr

/-- One requested line of `req.body.itemsList`, in the documented shape
`{itemId, itemQty}` (order.js:13); the record has no `_id` field. -/
structure RequestLine where
  itemId : ℕ
  itemQty : ℚ
  deriving DecidableEq, Repr

/-- Order lifecycle status; `CREATED` is the only state this core produces. -/
inductive OrderStatus where
  | CREATED
  deriving DecidableEq, Repr

/-- A persisted Order record, fields as constructed at order.js:104-114
(`createdOn` omitted: irrelevant to every claim). -/
structure Order where
  _id : ℕ
  userId : ℕ
  status : OrderStatus
  itemsPurchased : List RequestLine
  orderValueInPaiseBeforeDiscount : ℚ
  orderValueInPaiseAfterDiscount : ℚ
  discountAmount : ℚ
  discountCode : Option ℕ
  deriving DecidableEq, Repr

/-- Embeds the catalog-row resolution at order.js:55-57:
`dbItemsList.find((dbItem) => dbItem._id.equals(item._id))`.
The request line has only `itemId` and `itemQty`, so `item._id` evaluates to
`undefined`, and `ObjectId.equals(undefined)` is `false` for every catalog
row: the `find` always yields `undefined` (`none`). -/
def findDbItem (dbItemsList : List Item) (_item : RequestLine) : Option Item :=
  dbItemsList.find? (fun _dbItem => false)

/-- Embeds one iteration of the `itemsList.forEach` body (order.js:54-66),
returning the increment this line contributes to
`orderValueInPaiseBeforeDiscount` — or the error it throws.
  - If the `find` yielded `undefined`: `dbItem?.availableQty < item.itemQty`
    is `undefined < n`, which is `false`, so the stock check does not fire;
    the accumulation line then evaluates `dbItem.priceInPaise` on
    `undefined` and throws a TypeError.
  - If a row was found and `availableQty < itemQty`: the stock error of
    line 60-62 is thrown, naming the item and the quantity left.
  - Otherwise the accumulation line evaluates
    `dbItem.priceInPaise * itemQty`; the left operand is fine, but the bare
    identifier `itemQty` (line 65; the loop variable is `item`) is an
    unresolved reference under the file's `'use strict'` and throws a
    ReferenceError. -/
def processLine (dbItemsList : List Item) (item : RequestLine) :
    Except JsError ℚ :=
  match findDbItem dbItemsList item with
  | none =>
    Except.error (JsError.typeError
      "Cannot read properties of undefined (reading priceInPaise)")
  | some db =>
    if db.availableQty < item.itemQty then
      Except.error (JsError.jsError
        ("Only " ++ toString db.availableQty ++ " units of "
          ++ db.itemName ++ " are left"))
    else
      Except.error (JsError.referenceError "itemQty is not defined")

/-- Embeds the whole pricing loop of order.js:54-66: `forEach` visits the
lines in order, accumulating into `orderValueInPaiseBeforeDiscount`
(initialised to 0 at line 20); the first thrown error rejects the promise
chain. -/
def computeBeforeDiscount (dbItemsList : List Item) (acc : ℚ) :
    List RequestLine → Except JsError ℚ
  | [] => Except.ok acc
  | item :: rest =>
    match processLine dbItemsList item with
    | Except.error e => Except.error e
    | Except.ok inc => computeBeforeDiscount dbItemsList (acc + inc) rest

/-- Coercion of the `NTH_ORDER_COUNT` environment string to the configured
period.  `process.env` values are strings, absent gives `undefined`; the `%`
on order.js:77 coerces its right operand with `Number(_)`.  The spec (§6)
fixes the configuration to a positive integer, so the embedding parses a
natural number; an absent variable or a string that does not denote a number
coerces to `NaN`, embedded as `none`. -/
def coerceEnvNat : Option String → Option ℕ
  | none => none
  | some s => s.toNat?

/-- Embeds the eligibility test `currentOrderCount % process.env.NTH_ORDER_COUNT == 0`
(order.js:77).  When the coerced period is `NaN` (`none`), `x % NaN` is `NaN`
and `NaN == 0` is `false`.  When the period is `0`, `x % 0` is `NaN` as well.
Otherwise the test is ordinary integer remainder. -/
def nthEligible (currentOrderCount : ℕ) : Option ℕ → Bool
  | none => false
  | some n => n != 0 && currentOrderCount % n == 0

/-- The state produced by the discount-eligibility step. -/
structure DiscountStageResult where
  discountAmount : ℚ
  orderValueInPaiseAfterDiscount : ℚ
  discountCode : Option ℕ
  registry : Registry
  deriving DecidableEq, Repr

/-- Embeds the discount-eligibility step of order.js:71-92, given the
accumulated before-discount total, the order count read from the store, and
the coerced period.  On the qualifying path: `discountPercent = 10`,
`discountAmount = 0.1 * orderValueInPaiseBeforeDiscount`,
`after = before - discountAmount`, and the helper is called as
`createDiscountCodeHelper(orderId, discountPercent, discountAmount)` — the
helper's one parameter binds the first argument, the order's ObjectId (see
`createDiscountCodeHelper`).  Otherwise `after = before` and the
`discountAmount` initialised to `0` at order.js:22 is kept. -/
def discountStage (orderId : ℕ) (orderValueInPaiseBeforeDiscount : ℚ)
    (existingOrdersCount : ℕ) (nth : Option ℕ) (reg : Registry) :
    DiscountStageResult :=
  let currentOrderCount := existingOrdersCount + 1
  if nthEligible currentOrderCount nth then
    let discountAmount := (1 / 10 : ℚ) * orderValueInPaiseBeforeDiscount
    let after := orderValueInPaiseBeforeDiscount - discountAmount
    let issued := createDiscountCodeHelper (JsVal.oid orderId) reg
    { discountAmount := discountAmount
      orderValueInPaiseAfterDiscount := after
      discountCode := some issued.1
      registry := issued.2 }
  else
    { discountAmount := 0
      orderValueInPaiseAfterDiscount := orderValueInPaiseBeforeDiscount
      discountCode := none
      registry := reg }

/-- JavaScript `Number.prototype.toFixed(2)` on an exact rational: round to
the nearest multiple of 1/100 (order.js:99-102 shreds everything after two
decimal places).  The resulting string is cast back to a number by the
schema; the embedding keeps the rational value. -/
def toFixed2 (q : ℚ) : ℚ :=
  (round (q * 100) : ℚ) / 100

/-- Embeds the persistence step of order.js:98-117: both totals pass through
`toFixed(2)`, then the Order document is constructed (lines 104-114) and
saved. -/
def persistOrder (orderId userId : ℕ) (itemsList : List RequestLine)
    (orderValueInPaiseBeforeDiscount : ℚ) (st : DiscountStageResult)
    (orders : List Order) : Order × List Order :=
  let ord : Order :=
    { _id := orderId
      userId := userId
      status := OrderStatus.CREATED
      itemsPurchased := itemsList
      orderValueInPaiseBeforeDiscount := toFixed2 orderValueInPaiseBeforeDiscount
      orderValueInPaiseAfterDiscount := toFixed2 st.orderValueInPaiseAfterDiscount
      discountAmount := st.discountAmount
      discountCode := st.discountCode }
  (ord, orders ++ [ord])

/-- The success payload sent back to the client (order.js:136-142). -/
structure OrderResponse where
  orderId : ℕ
  invoiceId : ℕ
  orderValueInPaiseAfterDiscount : ℚ
  discountAmount : ℚ
  deriving DecidableEq, Repr

/-- Embeds the whole `createNewOrder` promise chain (order.js:16-148).
Inputs: the request (`userId`, `itemsList`), the stores (`catalog`, `reg`,
`orders`), the raw `NTH_ORDER_COUNT` environment value, the pre-generated
order ObjectId (line 23) and the invoice id the external payment
collaborator would return (spec §6; out of this core's scope).
  - Empty items list throws (lines 25-27).
  - The aggregate fetches the catalog rows whose `_id` is among the
    requested `itemId`s (lines 30-44); no matching row throws
    `'Items not found'` (lines 46-48).
  - The pricing loop runs (`computeBeforeDiscount`), then the order count is
    read, the discount stage runs, the order is persisted, and the response
    is assembled.  An error anywhere rejects the chain and nothing after it
    executes. -/
def createNewOrder (userId : ℕ) (itemsList : List RequestLine)
    (catalog : List Item) (env : Option String) (reg : Registry)
    (orders : List Order) (orderId invoiceId : ℕ) :
    Except JsError (OrderResponse × Registry × List Order) :=
  if itemsList.length = 0 then
    Except.error (JsError.jsError "Failed to create order. No items found")
  else
    let dbItemsList :=
      catalog.filter (fun it => itemsList.any (fun line => line.itemId == it._id))
    if dbItemsList.length = 0 then
      Except.error (JsError.jsError "Items not found")
    else
      match computeBeforeDiscount dbItemsList 0 itemsList with
      | Except.error e => Except.error e
      | Except.ok before =>
        let st := discountStage orderId before orders.length (coerceEnvNat env) reg
        let saved := persistOrder orderId userId itemsList before st orders
        Except.ok
          ({ orderId := orderId
             invoiceId := invoiceId
             orderValueInPaiseAfterDiscount := toFixed2 st.orderValueInPaiseAfterDiscount
             discountAmount := st.discountAmount }
           , st.registry, saved.2)

/-- The `req.userIsAdmin` flag: the middleware may leave it unset
(`undefined`), so the embedding is an optional boolean. -/
abbrev AdminFlag := Option Bool

/-- JavaScript truthiness of the optional admin flag: `!req.userIsAdmin`
rejects both `false` and `undefined`. -/
def jsTruthy : AdminFlag → Bool
  | some true => true
  | some false => false
  | none => false

/-- Error outcomes of the admin endpoints, distinguished by which throw
produced them (the catch-all then converts any of them into the same 500
response): the synchronous authorization throw (admin-controls.js:85-87
etc.), the missing-aggregate throw the callback at admin-controls.js:132-134
and 202-204 would raise, and a thrown TypeError such as calling a method the
receiver does not have. -/
inductive AdminError where
  | unauthorized
  | noData
  | typeError (msg : String)
  deriving DecidableEq, Repr

/-- A Mongo `$group` with `_id: null` and a `$sum` accumulator: over an
empty collection it produces no row at all; otherwise a single row holding
the sum. -/
def mongoGroupSum (vals : List ℚ) : List ℚ :=
  match vals with
  | [] => []
  | v :: vs => [(v :: vs).sum]

/-- Embeds `getItemsPurchasedList` (admin-controls.js:82-106): after the
admin check, `Item.find` projects `_id`, `itemName`, `purchasedCount` of
every item. -/
def getItemsPurchasedList (userIsAdmin : AdminFlag) (items : List Item) :
    Except AdminError (List (ℕ × String × ℕ)) :=
  if !jsTruthy userIsAdmin then
    Except.error AdminError.unauthorized
  else
    Except.ok (items.map (fun it => (it._id, it.itemName, it.purchasedCount)))

/-- The callback body the totals endpoints pass to `.toArray`
(admin-controls.js:127-139 and 197-209), on the result array the aggregate
would deliver: an empty result, or a first row whose total is falsy
(`!result[0]?.totalPurchaseAmount`, so in particular `0`), throws the
missing-data error; otherwise the total is responded.  The callback is
constructed but never invoked: the `.toArray` call it is passed to throws
first (see `getTotalPurchaseAmount`). -/
def aggregateTotalCallback (result : List ℚ) : Except AdminError ℚ :=
  match result with
  | [] => Except.error AdminError.noData
  | total :: _ =>
    if total = 0 then Except.error AdminError.noData
    else Except.ok total

/-- Embeds `getTotalPurchaseAmount` (admin-controls.js:112-146).  After the
admin check, line 120-127 evaluates
`Order.aggregate([...]).toArray((error, result) => ...)`.  The model layer
is mongoose throughout the repository (`new Order({...}).save()`,
`findOne(...).then`, `countDocuments()`, and `Item.aggregate([...]).then` in
order.js:30-45), and a mongoose `Aggregate` has no `toArray` method — that
is a native-driver cursor method.  Property access yields `undefined` and
calling it throws a synchronous TypeError, caught by the surrounding `try`,
so every authorized call answers the 500 error: the empty/zero check inside
the callback is unreachable and no sum is ever returned. -/
def getTotalPurchaseAmount (userIsAdmin : AdminFlag) (_orders : List Order) :
    Except AdminError ℚ :=
  if !jsTruthy userIsAdmin then
    Except.error AdminError.unauthorized
  else
    Except.error (AdminError.typeError
      "Order.aggregate(...).toArray is not a function")

/-- Embeds `getDiscountCodesList` (admin-controls.js:152-176): after the
admin check, `DiscountCode.find` projects `_id`, `discountPercent`,
`discountAmount` of every code. -/
def getDiscountCodesList (userIsAdmin : AdminFlag) (reg : Registry) :
    Except AdminError (List (ℕ × JsVal × Option ℚ)) :=
  if !jsTruthy userIsAdmin then
    Except.error AdminError.unauthorized
  else
    Except.ok (reg.map (fun dc => (dc._id, dc.discountPercent, dc.discountAmount)))

/-- The contribution of one code to the `$sum` of `discountAmount`: `$sum`
ignores documents where the field is missing, i.e. they contribute 0. -/
def codeAmount (dc : DiscountCode) : ℚ :=
  match dc.discountAmount with
  | none => 0
  | some a => a

/-- Embeds `getTotalDiscountAmount` (admin-controls.js:182-216): same shape
as `getTotalPurchaseAmount`, and the same defect —
`DiscountCode.aggregate([...])` is a mongoose `Aggregate` without a
`toArray` method, so after the admin check the call throws a synchronous
TypeError into the catch-all and every authorized call answers the 500
error. -/
def getTotalDiscountAmount (userIsAdmin : AdminFlag) (_reg : Registry) :
    Except AdminError ℚ :=
  if !jsTruthy userIsAdmin then
    Except.error AdminError.unauthorized
  else
    Except.error (AdminError.typeError
      "DiscountCode.aggregate(...).toArray is not a function")

/-! ## Helper lemmas -/

/-- The catalog-row `find` of order.js:55-57 never succeeds: the predicate
compares against `item._id`, which is `undefined` on a request line. -/
theorem findDbItem_eq_none (dbItemsList : List Item) (item : RequestLine) :
    findDbItem dbItemsList item = none := by
  unfold findDbItem
  exact List.find?_eq_none.mpr (fun x _ => by simp)

/-- Every iteration of the pricing loop throws the TypeError of reading
`priceInPaise` on `undefined`. -/
theorem processLine_throws (dbItemsList : List Item) (item : RequestLine) :
    processLine dbItemsList item =
      Except.error (JsError.typeError
        "Cannot read properties of undefined (reading priceInPaise)") := by
  unfold processLine
  rw [findDbItem_eq_none]

/-- The pricing loop over a non-empty request throws at its first line. -/
theorem computeBeforeDiscount_throws (dbItemsList : List Item) (acc : ℚ)
    (item : RequestLine) (rest : List RequestLine) :
    computeBeforeDiscount dbItemsList acc (item :: rest) =
      Except.error (JsError.typeError
        "Cannot read properties of undefined (reading priceInPaise)") := by
  unfold computeBeforeDiscount
  rw [processLine_throws]

/-- Every element of a list of naturals is bounded by the list's
`foldr max 0`. -/
theorem le_foldr_max (l : List ℕ) (x : ℕ) (hx : x ∈ l) :
    x ≤ l.foldr max 0 := by
  induction l with
  | nil => cases hx
  | cons a t ih =>
    rcases List.mem_cons.mp hx with h | h
    · subst h; exact le_max_left _ _
    · exact le_trans (ih h) (le_max_right _ _)

/-- `freshCodeId` is strictly larger than every id in the registry. -/
theorem lt_freshCodeId (reg : Registry) (dc : DiscountCode) (h : dc ∈ reg) :
    dc._id < freshCodeId reg :=
  Nat.lt_succ_of_le (le_foldr_max _ _ (List.mem_map_of_mem DiscountCode._id h))

/-- Looking up a freshly issued id in the updated registry finds exactly the
new document. -/
theorem regLookup_fresh (reg : Registry) (p : JsVal) :
    regLookup (createDiscountCodeHelper p reg).2
        (createDiscountCodeHelper p reg).1 =
      LookupOutcome.ok (some
        { _id := freshCodeId reg
          discountPercent := p
          status := DiscountCodeStatus.ACTIVE
          orderId := none
          discountAmount := none }) := by
  unfold regLookup createDiscountCodeHelper
  have hnone : reg.find? (fun dc => dc._id == freshCodeId reg) = none := by
    refine List.find?_eq_none.mpr (fun dc hdc => ?_)
    simp only [beq_iff_eq]
    exact Nat.ne_of_lt (lt_freshCodeId reg dc hdc)
  simp [List.find?_append, hnone]

/-- The whole `createNewOrder` chain throws the pricing-loop TypeError on
every request with at least one line whose item exists in the catalog: the
row resolution of order.js:55-57 cannot find any row (`item._id` is
undefined), so the accumulation reads `priceInPaise` of `undefined`. -/
theorem createNewOrder_pricing_throws
    (userId : ℕ) (itemsList : List RequestLine) (catalog : List Item)
    (env : Option String) (reg : Registry) (orders : List Order)
    (orderId invoiceId : ℕ)
    (hne : itemsList ≠ [])
    (hmatch : ∃ line ∈ itemsList, ∃ it ∈ catalog, it._id = line.itemId) :
    createNewOrder userId itemsList catalog env reg orders orderId invoiceId =
      Except.error (JsError.typeError
        "Cannot read properties of undefined (reading priceInPaise)") := by
  obtain ⟨a, l, rfl⟩ : ∃ a l, itemsList = a :: l := by
    cases itemsList with
    | nil => exact absurd rfl hne
    | cons a l => exact ⟨a, l, rfl⟩
  obtain ⟨line, hline, it, hit, hid⟩ := hmatch
  unfold createNewOrder
  have hlen : (a :: l).length = 0 ↔ False := by simp
  have hfilter :
      (catalog.filter
        (fun it => (a :: l).any (fun line => line.itemId == it._id))).length ≠ 0 := by
    have hmem : it ∈ catalog.filter
        (fun it => (a :: l).any (fun line => line.itemId == it._id)) := by
      refine List.mem_filter.mpr ⟨hit, ?_⟩
      exact List.any_eq_true.mpr ⟨line, hline, by simp [hid]⟩
    intro hzero
    rw [List.length_eq_zero] at hzero
    rw [hzero] at hmem
    cases hmem
  rw [if_neg (by simp), if_neg hfilter, computeBeforeDiscount_throws]

/-- `toFixed(2)` is exact on a value that is an integer multiple of one
hundredth. -/
theorem toFixed2_div100 (k : ℤ) : toFixed2 ((k : ℚ) / 100) = (k : ℚ) / 100 := by
  unfold toFixed2
  rw [div_mul_cancel₀ _ (by norm_num : (100 : ℚ) ≠ 0), round_intCast]

/-- `toFixed(2)` is exact on integers. -/
theorem toFixed2_intCast (b : ℤ) : toFixed2 ((b : ℤ) : ℚ) = ((b : ℤ) : ℚ) := by
  have h : ((b : ℤ) : ℚ) = (((100 * b : ℤ) : ℚ)) / 100 := by
    push_cast
    ring
  rw [h, toFixed2_div100]

/-! ## Claim theorems -/

/-- C1: the claim says that on every non-empty request in which each
requested item has a matching catalog row and each requested quantity is in
stock, `createNewOrder` computes `orderValueInPaiseBeforeDiscount` as
Σ priceInPaise × itemQty.  The code instead throws on every such request:
the row resolution (order.js:56) compares against the nonexistent field
`item._id`, so no row is ever found, and the accumulation line (order.js:65)
then reads `priceInPaise` of `undefined`.  (Had the row been found, the bare
identifier `itemQty` on line 65 would raise a ReferenceError instead.)  This
theorem proves the failure on the claim's whole domain. -/
theorem c1_createNewOrder_throws_despite_valid_stock
    (userId : ℕ) (itemsList : List RequestLine) (catalog : List Item)
    (env : Option String) (reg : Registry) (orders : List Order)
    (orderId invoiceId : ℕ)
    (hne : itemsList ≠ [])
    (hmatch : ∀ line ∈ itemsList, ∃ it ∈ catalog, it._id = line.itemId)
    (_hqty : ∀ line ∈ itemsList, ∀ it ∈ catalog,
      it._id = line.itemId → line.itemQty ≤ it.availableQty) :
    createNewOrder userId itemsList catalog env reg orders orderId invoiceId =
      Except.error (JsError.typeError
        "Cannot read properties of undefined (reading priceInPaise)") := by
  refine createNewOrder_pricing_throws userId itemsList catalog env reg orders
    orderId invoiceId hne ?_
  obtain ⟨a, l, rfl⟩ : ∃ a l, itemsList = a :: l := by
    cases itemsList with
    | nil => exact absurd rfl hne
    | cons a l => exact ⟨a, l, rfl⟩
  exact ⟨a, List.mem_cons_self a l, hmatch a (List.mem_cons_self a l)⟩

/-- C1 witness: a concrete in-stock one-line request (item 1, quantity 2,
five units available at 100 paise) still rejects with the TypeError. -/
theorem c1_witness :
    createNewOrder 7 [⟨1, 2⟩] [⟨1, "Choco", 100, 5, 0⟩] (some "5") [] [] 99 42 =
      Except.error (JsError.typeError
        "Cannot read properties of undefined (reading priceInPaise)") :=
  c1_createNewOrder_throws_despite_valid_stock 7 [⟨1, 2⟩]
    [⟨1, "Choco", 100, 5, 0⟩] (some "5") [] [] 99 42
    (by decide) (by decide) (by decide)

/-- C4: the claim says a request line with no catalog row, or with a
quantity exceeding `availableQty`, fails with the stock error naming the
item and the quantity left.  Because the row resolution (order.js:56) never
finds a row (`item._id` is undefined on a request line), the stock check
`dbItem?.availableQty < item.itemQty` compares `undefined`, which is false,
and the stock error is unreachable: even a request exceeding the available
quantity of an existing item rejects with the TypeError of order.js:65, not
with the stock error.  (No Order is persisted — that part of the claim
holds, the chain rejects before `order.save()`.) -/
theorem c4_stock_error_unreachable
    (userId : ℕ) (itemsList : List RequestLine) (catalog : List Item)
    (env : Option String) (reg : Registry) (orders : List Order)
    (orderId invoiceId : ℕ)
    (hexceed : ∃ line ∈ itemsList, ∃ it ∈ catalog,
      it._id = line.itemId ∧ it.availableQty < line.itemQty) :
    createNewOrder userId itemsList catalog env reg orders orderId invoiceId =
      Except.error (JsError.typeError
        "Cannot read properties of undefined (reading priceInPaise)") ∧
    ∀ msg : String,
      createNewOrder userId itemsList catalog env reg orders orderId invoiceId ≠
        Except.error (JsError.jsError msg) := by
  obtain ⟨line, hline, it, hit, hid, _⟩ := hexceed
  have hne : itemsList ≠ [] := by
    rintro rfl
    cases hline
  have h := createNewOrder_pricing_throws userId itemsList catalog env reg
    orders orderId invoiceId hne ⟨line, hline, it, hit, hid⟩
  refine ⟨h, fun msg hcontra => ?_⟩
  rw [h] at hcontra
  simp at hcontra

/-- C4 witness: requesting five units of an item with one unit left does not
produce the documented stock error; it rejects with the TypeError. -/
theorem c4_witness :
    createNewOrder 7 [⟨1, 5⟩] [⟨1, "Choco", 100, 1, 0⟩] (some "5") [] [] 99 42 =
      Except.error (JsError.typeError
        "Cannot read properties of undefined (reading priceInPaise)") :=
  (c4_stock_error_unreachable 7 [⟨1, 5⟩] [⟨1, "Choco", 100, 1, 0⟩] (some "5")
    [] [] 99 42 (by decide)).1

/-- C2: the claim says the qualifying order requests a discount code
carrying the order's id, the percent 10 and the discount amount, and that
the persisted code references that order.  The call site (order.js:84-88)
does pass those three arguments, but `createDiscountCodeHelper`
(admin-controls.js:16) declares the single parameter `discountPercent`:
the order's ObjectId binds to `discountPercent`, the two other arguments
are dropped, and the saved document — shown in full by this theorem — is
ACTIVE but stores the ObjectId where the percent belongs and carries no
reference to the order and no discount amount. -/
theorem c2_discount_code_not_tagged
    (orderId : ℕ) (orderValueInPaiseBeforeDiscount : ℚ) (count n : ℕ)
    (reg : Registry)
    (helig : nthEligible (count + 1) (some n) = true) :
    (discountStage orderId orderValueInPaiseBeforeDiscount count (some n)
        reg).registry =
      reg ++ [{ _id := freshCodeId reg
                discountPercent := JsVal.oid orderId
                status := DiscountCodeStatus.ACTIVE
                orderId := none
                discountAmount := none }] ∧
    (discountStage orderId orderValueInPaiseBeforeDiscount count (some n)
        reg).discountCode = some (freshCodeId reg) := by
  constructor <;>
    simp [discountStage, helig, createDiscountCodeHelper]

/-- C2 witness: the fifth order (count 4, period 5), order id 99: the one
persisted code has `discountPercent = oid 99`, no order reference, no
amount. -/
theorem c2_witness :
    (discountStage 99 (1000 : ℚ) 4 (some 5) []).registry =
      [{ _id := 1
         discountPercent := JsVal.oid 99
         status := DiscountCodeStatus.ACTIVE
         orderId := none
         discountAmount := none }] :=
  (c2_discount_code_not_tagged 99 1000 4 5 [] (by decide)).1

/-- C5: the claim says `validateCode` never raises, malformed codes
included.  But `new ObjectId(discountCode)` (admin-controls.js:226) runs
synchronously inside the Promise executor and throws on a malformed string,
rejecting the promise; the `.catch` of line 244 guards only the `findOne`
promise.  So for every malformed code string the promise rejects instead of
resolving `{validCode: false}`, whatever the store contains. -/
theorem c5_validate_malformed_rejects
    (s : String) (lookup : ℕ → LookupOutcome) (reg : Registry) :
    (validateDiscountCode (CodeString.malformed s) lookup reg).1 =
      Except.error JsError.bsonTypeError :=
  rfl

/-- C10: each of the four admin endpoints checks `req.userIsAdmin` first,
synchronously, and throws before touching any store; with the flag false or
absent the outcome is the unauthorized error and is the same whatever the
stores contain (the conclusion does not depend on `items`, `orders` or
`reg`). -/
theorem c10_admin_endpoints_reject_non_admin
    (flag : AdminFlag) (h : jsTruthy flag = false)
    (items : List Item) (orders : List Order) (reg : Registry) :
    getItemsPurchasedList flag items = Except.error AdminError.unauthorized ∧
    getTotalPurchaseAmount flag orders = Except.error AdminError.unauthorized ∧
    getDiscountCodesList flag reg = Except.error AdminError.unauthorized ∧
    getTotalDiscountAmount flag reg = Except.error AdminError.unauthorized := by
  refine ⟨?_, ?_, ?_, ?_⟩ <;>
    simp [getItemsPurchasedList, getTotalPurchaseAmount,
      getDiscountCodesList, getTotalDiscountAmount, h]

/-- C10 witness: an absent admin flag is rejected by all four endpoints. -/
theorem c10_witness :
    getItemsPurchasedList none [] = Except.error AdminError.unauthorized ∧
    getTotalPurchaseAmount none [] = Except.error AdminError.unauthorized ∧
    getDiscountCodesList none [] = Except.error AdminError.unauthorized ∧
    getTotalDiscountAmount none [] = Except.error AdminError.unauthorized :=
  c10_admin_endpoints_reject_non_admin none rfl [] [] []

/-- C7: issuing a code with percent `p` and immediately validating the
returned id yields `{validCode: true, discountPercent: p}`: the fresh id is
strictly larger than every existing id, so the lookup finds exactly the new
ACTIVE document, whose `discountPercent` is the `p` passed in. -/
theorem c7_issue_then_validate (p : ℚ) (reg : Registry) :
    (validateDiscountCode
        (CodeString.wellFormed (createDiscountCodeHelper (JsVal.num p) reg).1)
        (regLookup (createDiscountCodeHelper (JsVal.num p) reg).2)
        (createDiscountCodeHelper (JsVal.num p) reg).2).1 =
      Except.ok (ValidateResult.valid (JsVal.num p)) := by
  have h := regLookup_fresh reg (JsVal.num p)
  simp [validateDiscountCode, h]

/-- C3: for a configured period N and an integer before-discount total in
paise: on the qualifying Nth order (`(count + 1) % N = 0`) the discount
amount is 10% of the before-discount total and the after-discount total is
before minus discount; otherwise the discount amount is 0, the after total
equals the before total, and no discount code is issued; and the persisted
Order always satisfies
`orderValueInPaiseAfterDiscount = orderValueInPaiseBeforeDiscount − discountAmount`
(the `toFixed(2)` rounding of order.js:99-102 is exact here).  JavaScript
float arithmetic is abstracted to exact rationals. -/
theorem c3_discount_arithmetic
    (orderId userId : ℕ) (itemsList : List RequestLine) (b : ℤ)
    (count N : ℕ) (reg : Registry) (orders : List Order) (hN : 0 < N) :
    ((count + 1) % N = 0 →
      (discountStage orderId (b : ℚ) count (some N) reg).discountAmount =
        (b : ℚ) / 10 ∧
      (discountStage orderId (b : ℚ) count (some N)
          reg).orderValueInPaiseAfterDiscount =
        (b : ℚ) -
          (discountStage orderId (b : ℚ) count (some N) reg).discountAmount) ∧
    ((count + 1) % N ≠ 0 →
      (discountStage orderId (b : ℚ) count (some N) reg).discountAmount = 0 ∧
      (discountStage orderId (b : ℚ) count (some N)
          reg).orderValueInPaiseAfterDiscount = (b : ℚ) ∧
      (discountStage orderId (b : ℚ) count (some N) reg).discountCode = none ∧
      (discountStage orderId (b : ℚ) count (some N) reg).registry = reg) ∧
    ((persistOrder orderId userId itemsList (b : ℚ)
        (discountStage orderId (b : ℚ) count (some N) reg)
        orders).1.orderValueInPaiseAfterDiscount =
      (persistOrder orderId userId itemsList (b : ℚ)
        (discountStage orderId (b : ℚ) count (some N) reg)
        orders).1.orderValueInPaiseBeforeDiscount -
      (persistOrder orderId userId itemsList (b : ℚ)
        (discountStage orderId (b : ℚ) count (some N) reg)
        orders).1.discountAmount) := by
  have hN0 : N ≠ 0 := hN.ne'
  by_cases h : (count + 1) % N = 0
  · have he : nthEligible (count + 1) (some N) = true := by
      simp [nthEligible, hN0, h]
    refine ⟨fun _ => ⟨?_, ?_⟩, fun hc => absurd h hc, ?_⟩
    · simp [discountStage, he]
      ring
    · simp [discountStage, he]
    · simp only [persistOrder, discountStage, he, if_pos]
      have h1 : ((b : ℚ) - 1 / 10 * b) = ((90 * b : ℤ) : ℚ) / 100 := by
        push_cast
        ring
      simp only [h1]
      rw [toFixed2_div100, toFixed2_intCast]
      push_cast
      ring
  · have he : nthEligible (count + 1) (some N) = false := by
      simp [nthEligible, h]
    refine ⟨fun hc => absurd hc h, fun _ => ⟨?_, ?_, ?_, ?_⟩, ?_⟩ <;>
      simp [discountStage, he, persistOrder]

/-- C3 witness: the fifth order (count 4, period 5) with a before-discount
total of 1000 paise gets a discount amount of exactly 100 paise. -/
theorem c3_witness :
    (discountStage 99 ((1000 : ℤ) : ℚ) 4 (some 5) []).discountAmount =
      ((1000 : ℤ) : ℚ) / 10 := by
  have h := c3_discount_arithmetic 99 7 [] 1000 4 5 [] [] (by norm_num)
  exact (h.1 (by decide)).1

/-- C9: when `NTH_ORDER_COUNT` is absent or not numeric, its coercion is
`NaN` (`coerceEnvNat env = none`), `x % NaN` is `NaN`, and `NaN == 0` is
false: whatever the order's position, the eligibility test never holds, the
discount amount is 0, the after total equals the before total, no discount
code is issued, and the persisted Order records a zero discount with equal
totals. -/
theorem c9_no_discount_without_config
    (orderId userId : ℕ) (itemsList : List RequestLine) (b : ℚ)
    (count : ℕ) (env : Option String) (reg : Registry) (orders : List Order)
    (henv : coerceEnvNat env = none) :
    (discountStage orderId b count (coerceEnvNat env) reg).discountAmount = 0 ∧
    (discountStage orderId b count (coerceEnvNat env)
        reg).orderValueInPaiseAfterDiscount = b ∧
    (discountStage orderId b count (coerceEnvNat env) reg).discountCode = none ∧
    (discountStage orderId b count (coerceEnvNat env) reg).registry = reg ∧
    (persistOrder orderId userId itemsList b
        (discountStage orderId b count (coerceEnvNat env) reg)
        orders).1.orderValueInPaiseAfterDiscount =
      (persistOrder orderId userId itemsList b
        (discountStage orderId b count (coerceEnvNat env) reg)
        orders).1.orderValueInPaiseBeforeDiscount ∧
    (persistOrder orderId userId itemsList b
        (discountStage orderId b count (coerceEnvNat env) reg)
        orders).1.discountAmount = 0 := by
  rw [henv]
  refine ⟨?_, ?_, ?_, ?_, ?_, ?_⟩ <;>
    simp [discountStage, nthEligible, persistOrder]

/-- C9 witness: with `NTH_ORDER_COUNT` unset the eighth order gets no
discount. -/
theorem c9_witness :
    (discountStage 99 (1000 : ℚ) 7 (coerceEnvNat none) []).discountAmount = 0 := by
  have h := c9_no_discount_without_config 99 7 [] 1000 7 none [] [] rfl
  exact h.1

/-- C8: validating a stored ACTIVE code resolves
`{validCode: true, discountPercent}`, leaves the registry unchanged, running
it a second time on the resulting store gives the very same outcome, and the
code's stored status is still ACTIVE afterwards (validation alone never
writes). -/
theorem c8_validate_idempotent
    (id : ℕ) (reg : Registry) (dc : DiscountCode)
    (hfind : reg.find? (fun c => c._id == id) = some dc)
    (hact : dc.status = DiscountCodeStatus.ACTIVE) :
    validateDiscountCode (CodeString.wellFormed id) (regLookup reg) reg =
      (Except.ok (ValidateResult.valid dc.discountPercent), reg) ∧
    validateDiscountCode (CodeString.wellFormed id)
        (regLookup (validateDiscountCode (CodeString.wellFormed id)
          (regLookup reg) reg).2)
        (validateDiscountCode (CodeString.wellFormed id) (regLookup reg) reg).2 =
      validateDiscountCode (CodeString.wellFormed id) (regLookup reg) reg ∧
    ((validateDiscountCode (CodeString.wellFormed id) (regLookup reg)
        reg).2.find? (fun c => c._id == id)).map DiscountCode.status =
      some DiscountCodeStatus.ACTIVE := by
  have h1 : validateDiscountCode (CodeString.wellFormed id) (regLookup reg) reg =
      (Except.ok (ValidateResult.valid dc.discountPercent), reg) := by
    simp [validateDiscountCode, regLookup, hfind, hact]
  refine ⟨h1, ?_, ?_⟩
  · rw [h1]
    exact h1
  · rw [h1]
    simp [hfind, hact]

/-- C8 witness: a registry holding the single ACTIVE code 3 at percent 10:
validation answers valid-at-10 and returns the registry unchanged. -/
theorem c8_witness :
    validateDiscountCode (CodeString.wellFormed 3)
        (regLookup [⟨3, JsVal.num 10, DiscountCodeStatus.ACTIVE, none, none⟩])
        [⟨3, JsVal.num 10, DiscountCodeStatus.ACTIVE, none, none⟩] =
      (Except.ok (ValidateResult.valid (JsVal.num 10)),
        [⟨3, JsVal.num 10, DiscountCodeStatus.ACTIVE, none, none⟩]) := by
  have h := c8_validate_idempotent 3
    [⟨3, JsVal.num 10, DiscountCodeStatus.ACTIVE, none, none⟩]
    ⟨3, JsVal.num 10, DiscountCodeStatus.ACTIVE, none, none⟩ (by decide) rfl
  exact h.1

/-- C6: the claim says the totals endpoints fail with the missing-data
error exactly on an empty/zero/undefined aggregate result and otherwise
return the sum — the policy of the callback at admin-controls.js:127-139
and 197-209 (embedded as `aggregateTotalCallback`).  But the callback is
passed to `.toArray` on a mongoose `Aggregate`, which has no such method:
the call throws a synchronous TypeError into the catch-all, so every
authorized call answers the 500 error, never the missing-data error and
never a sum — even when the intended policy would have returned one. -/
theorem c6_totals_toArray_throws (orders : List Order) (reg : Registry) :
    getTotalPurchaseAmount (some true) orders =
      Except.error (AdminError.typeError
        "Order.aggregate(...).toArray is not a function") ∧
    getTotalDiscountAmount (some true) reg =
      Except.error (AdminError.typeError
        "DiscountCode.aggregate(...).toArray is not a function") ∧
    getTotalPurchaseAmount (some true) orders ≠
      Except.error AdminError.noData ∧
    getTotalDiscountAmount (some true) reg ≠
      Except.error AdminError.noData ∧
    (∀ q : ℚ, getTotalPurchaseAmount (some true) orders ≠ Except.ok q) ∧
    (∀ q : ℚ, getTotalDiscountAmount (some true) reg ≠ Except.ok q) ∧
    (orders ≠ [] → (orders.map Order.orderValueInPaiseAfterDiscount).sum ≠ 0 →
      aggregateTotalCallback
          (mongoGroupSum (orders.map Order.orderValueInPaiseAfterDiscount)) =
        Except.ok (orders.map Order.orderValueInPaiseAfterDiscount).sum) ∧
    (reg ≠ [] → (reg.map codeAmount).sum ≠ 0 →
      aggregateTotalCallback (mongoGroupSum (reg.map codeAmount)) =
        Except.ok (reg.map codeAmount).sum) := by
  refine ⟨rfl, rfl, by simp [getTotalPurchaseAmount, jsTruthy],
    by simp [getTotalDiscountAmount, jsTruthy],
    by simp [getTotalPurchaseAmount, jsTruthy],
    by simp [getTotalDiscountAmount, jsTruthy], ?_, ?_⟩
  · intro hne hsum
    cases orders with
    | nil => exact absurd rfl hne
    | cons o l =>
      simp only [List.map_cons, List.sum_cons] at hsum ⊢
      simp [aggregateTotalCallback, mongoGroupSum, hsum]
  · intro hne hsum
    cases reg with
    | nil => exact absurd rfl hne
    | cons c l =>
      simp only [List.map_cons, List.sum_cons] at hsum ⊢
      simp [aggregateTotalCallback, mongoGroupSum, hsum]

/-- C6 witness: one order worth 5 paise after discount — the intended
callback policy would return the total 5, but the endpoint answers the
TypeError. -/
theorem c6_witness :
    getTotalPurchaseAmount (some true)
        [⟨1, 7, OrderStatus.CREATED, [], 5, 5, 0, none⟩] =
      Except.error (AdminError.typeError
        "Order.aggregate(...).toArray is not a function") ∧
    aggregateTotalCallback (mongoGroupSum
        ([⟨1, 7, OrderStatus.CREATED, [], 5, 5, 0, none⟩].map
          Order.orderValueInPaiseAfterDiscount)) = Except.ok 5 := by
  have h := c6_totals_toArray_throws
    [⟨1, 7, OrderStatus.CREATED, [], 5, 5, 0, none⟩] []
  refine ⟨h.1, ?_⟩
  have h2 := h.2.2.2.2.2.2.1 (by simp) (by norm_num)
  simpa using h2

end FourPMStore
